import Mathlib

/-!
# Pin table of the ESP32 SNES adapter (`src/pins_esp32.h`)

The header is a flat list of object-like macros.  Every `#define NAME n` line
becomes a constant `NAME : Nat := n` of the same name; the two mappings of the
data model (signal name to GPIO number, button to bit index) are then built on
top of those constants, in declaration order.
-/

namespace PinsEsp32

/-! ## The macros, line by line -/

/-- Latch/Strobe line of the SNES (`#define LATCH_PIN 25`). -/
def LATCH_PIN : Nat := 25
/-- Clock line of the SNES (`#define CLOCK_PIN 26`). -/
def CLOCK_PIN : Nat := 26
/-- Serial data line to the SNES (`#define DATA_PIN  27`). -/
def DATA_PIN : Nat := 27

/-- Physical button B, GPIO2. -/
def BUTTON_B : Nat := 2
/-- Physical button Y, GPIO4. -/
def BUTTON_Y : Nat := 4
/-- Physical button Select, GPIO5. -/
def BUTTON_SELECT : Nat := 5
/-- Physical button Start, GPIO18. -/
def BUTTON_START : Nat := 18
/-- Physical d-pad up, GPIO19. -/
def PAD_UP : Nat := 19
/-- Physical d-pad down, GPIO21. -/
def PAD_DOWN : Nat := 21
/-- Physical d-pad left, GPIO22. -/
def PAD_LEFT : Nat := 22
/-- Physical d-pad right, GPIO23. -/
def PAD_RIGHT : Nat := 23
/-- Physical button A, GPIO13. -/
def BUTTON_A : Nat := 13
/-- Physical button X, GPIO12. -/
def BUTTON_X : Nat := 12
/-- Physical button L, GPIO14. -/
def BUTTON_L : Nat := 14
/-- Physical button R, GPIO15. -/
def BUTTON_R : Nat := 15

/-- Bit index of B in the internal `uint32_t` (comment: Clock 1). -/
def SNES_B : Nat := 0
/-- Bit index of Y (comment: Clock 2). -/
def SNES_Y : Nat := 1
/-- Bit index of Select (comment: Clock 3). -/
def SNES_SELECT : Nat := 2
/-- Bit index of Start (comment: Clock 4). -/
def SNES_START : Nat := 3
/-- Bit index of Up (comment: Clock 5). -/
def SNES_UP : Nat := 4
/-- Bit index of Down (comment: Clock 6). -/
def SNES_DOWN : Nat := 5
/-- Bit index of Left (comment: Clock 7). -/
def SNES_LEFT : Nat := 6
/-- Bit index of Right (comment: Clock 8). -/
def SNES_RIGHT : Nat := 7
/-- Bit index of A (comment: Clock 9). -/
def SNES_A : Nat := 8
/-- Bit index of X (comment: Clock 10). -/
def SNES_X : Nat := 9
/-- Bit index of L (comment: Clock 11). -/
def SNES_L : Nat := 10
/-- Bit index of R (comment: Clock 12). -/
def SNES_R : Nat := 11

/-! ## The twelve buttons and their three macro families -/

/-- The twelve SNES buttons, listed in the order the header declares them. -/
inductive Button where
  | B | Y | Select | Start | Up | Down | Left | Right | A | X | L | R
  deriving DecidableEq, Fintype

/-- Every button, in declaration order. -/
def Button.all : List Button :=
  [.B, .Y, .Select, .Start, .Up, .Down, .Left, .Right, .A, .X, .L, .R]

/-- The `SNES_*` macro of a button: its bit index in the status word. -/
def Button.bit : Button → Nat
  | .B => SNES_B
  | .Y => SNES_Y
  | .Select => SNES_SELECT
  | .Start => SNES_START
  | .Up => SNES_UP
  | .Down => SNES_DOWN
  | .Left => SNES_LEFT
  | .Right => SNES_RIGHT
  | .A => SNES_A
  | .X => SNES_X
  | .L => SNES_L
  | .R => SNES_R

/-- The `BUTTON_*` / `PAD_*` macro of a button: the GPIO of its physical input. -/
def Button.pin : Button → Nat
  | .B => BUTTON_B
  | .Y => BUTTON_Y
  | .Select => BUTTON_SELECT
  | .Start => BUTTON_START
  | .Up => PAD_UP
  | .Down => PAD_DOWN
  | .Left => PAD_LEFT
  | .Right => PAD_RIGHT
  | .A => BUTTON_A
  | .X => BUTTON_X
  | .L => BUTTON_L
  | .R => BUTTON_R

/-- The number `k` of the trailing `// Clock k` comment on a button's
`SNES_*` line, transcribed from the header. -/
def Button.clock : Button → Nat
  | .B => 1
  | .Y => 2
  | .Select => 3
  | .Start => 4
  | .Up => 5
  | .Down => 6
  | .Left => 7
  | .Right => 8
  | .A => 9
  | .X => 10
  | .L => 11
  | .R => 12

/-! ## Signals: the fifteen pin-number macros -/

/-- The fifteen logical signals that own a GPIO: three protocol lines and the
twelve button inputs. -/
inductive Signal where
  | Latch | Clock | Data
  | Btn (b : Button)
  deriving DecidableEq, Fintype

/-- The three protocol signals, in declaration order. -/
def Signal.protocol : List Signal := [.Latch, .Clock, .Data]

/-- All fifteen signals, in declaration order. -/
def Signal.all : List Signal := Signal.protocol ++ Button.all.map Signal.Btn

/-- GPIO number assigned to a signal. -/
def Signal.pin : Signal → Nat
  | .Latch => LATCH_PIN
  | .Clock => CLOCK_PIN
  | .Data => DATA_PIN
  | .Btn b => b.pin

/-- GPIO numbers of the protocol group, in declaration order. -/
def protocolPins : List Nat := Signal.protocol.map Signal.pin

/-- GPIO numbers of the button group, in declaration order. -/
def buttonPins : List Nat := Button.all.map Button.pin

/-! ## Status-word masks -/

/-- Width of the internal status word (`uint32_t`). -/
def WORD_BITS : Nat := 32

/-- The expression `(uint32_t)1 << i`: a left shift reduced modulo `2^32`. -/
def shl32 (x i : Nat) : Nat := (x <<< i) % 2 ^ WORD_BITS

/-- Single-bit mask `1 << SNES_b` of a button in the status word. -/
def Button.mask (b : Button) : Nat := shl32 1 b.bit

/-- Bitwise OR of a list of words, starting from zero. -/
def orAll (ws : List Nat) : Nat := ws.foldl (· ||| ·) 0

/-! ## The header as a name/value table -/

/-- The twenty-seven macro names of the header: fifteen pin numbers and twelve
bit indices. -/
inductive Macro where
  | gpio (s : Signal)
  | index (b : Button)
  deriving DecidableEq, Fintype

/-- The identifier a macro is spelled with in the header. -/
def Macro.ident : Macro → String
  | .gpio .Latch => "LATCH_PIN"
  | .gpio .Clock => "CLOCK_PIN"
  | .gpio .Data => "DATA_PIN"
  | .gpio (.Btn .B) => "BUTTON_B"
  | .gpio (.Btn .Y) => "BUTTON_Y"
  | .gpio (.Btn .Select) => "BUTTON_SELECT"
  | .gpio (.Btn .Start) => "BUTTON_START"
  | .gpio (.Btn .Up) => "PAD_UP"
  | .gpio (.Btn .Down) => "PAD_DOWN"
  | .gpio (.Btn .Left) => "PAD_LEFT"
  | .gpio (.Btn .Right) => "PAD_RIGHT"
  | .gpio (.Btn .A) => "BUTTON_A"
  | .gpio (.Btn .X) => "BUTTON_X"
  | .gpio (.Btn .L) => "BUTTON_L"
  | .gpio (.Btn .R) => "BUTTON_R"
  | .index .B => "SNES_B"
  | .index .Y => "SNES_Y"
  | .index .Select => "SNES_SELECT"
  | .index .Start => "SNES_START"
  | .index .Up => "SNES_UP"
  | .index .Down => "SNES_DOWN"
  | .index .Left => "SNES_LEFT"
  | .index .Right => "SNES_RIGHT"
  | .index .A => "SNES_A"
  | .index .X => "SNES_X"
  | .index .L => "SNES_L"
  | .index .R => "SNES_R"

/-- The replacement value the header gives a macro. -/
def Macro.value : Macro → Nat
  | .gpio s => s.pin
  | .index b => b.bit

/-- Every macro, in the order of the header's lines. -/
def Macro.all : List Macro := Signal.all.map Macro.gpio ++ Button.all.map Macro.index

/-- Modelled from the spec: the header has no export routine; "re-exporting
the table" is taken as writing out one (identifier, value) pair per macro, in
header order. -/
def exportTable (table : Macro → Nat) : List (String × Nat) :=
  Macro.all.map fun m => (m.ident, table m)

/-- Modelled from the spec: the header has no lookup routine; "reading back a
named constant" is taken as returning the value of the first exported pair
carrying that identifier, if any. -/
def lookup : List (String × Nat) → String → Option Nat
  | [], _ => none
  | (k, v) :: rest, name => if k = name then some v else lookup rest name

/-! ## Theorems -/

/-- C1: the twelve bit-index macros have the values 0..11 in the SNES serial
order B, Y, Select, Start, Up, Down, Left, Right, A, X, L, R; listing the
buttons in that order, the k-th one (from 0) has bit index k. -/
theorem snes_bit_values_in_protocol_order :
    SNES_B = 0 ∧ SNES_Y = 1 ∧ SNES_SELECT = 2 ∧ SNES_START = 3 ∧
    SNES_UP = 4 ∧ SNES_DOWN = 5 ∧ SNES_LEFT = 6 ∧ SNES_RIGHT = 7 ∧
    SNES_A = 8 ∧ SNES_X = 9 ∧ SNES_L = 10 ∧ SNES_R = 11 ∧
    Button.all =
      [Button.B, Button.Y, Button.Select, Button.Start, Button.Up, Button.Down,
       Button.Left, Button.Right, Button.A, Button.X, Button.L, Button.R] ∧
    (∀ k : Fin 12, (Button.all.map Button.bit)[k.val]? = some k.val) := by
  decide

/-- C2: the fifteen pin-number macros are mutually distinct: two different
signals never get the same GPIO, so the signal-to-GPIO map is injective and the
list of the fifteen GPIO numbers has no repetition. -/
theorem pin_numbers_mutually_distinct :
    (∀ a b : Signal, a ≠ b → a.pin ≠ b.pin) ∧
    Function.Injective Signal.pin ∧
    (Signal.all.map Signal.pin).Nodup ∧
    (∀ s : Signal, s ∈ Signal.all) ∧
    Signal.all.length = 15 := by
  have h : ∀ a b : Signal, a.pin = b.pin → a = b := by decide
  refine ⟨fun a b hab hp => hab (h a b hp), fun a b hp => h a b hp, ?_, ?_, ?_⟩ <;> decide

/-- C3: the button-to-bit-index map is a bijection onto 0..11: every index is
at most 11, different buttons have different indices, and every value of
0..11 is the index of some button. -/
theorem bit_index_bijective_onto_range :
    (∀ b : Button, 0 ≤ b.bit ∧ b.bit ≤ 11) ∧
    (∀ a b : Button, a ≠ b → a.bit ≠ b.bit) ∧
    (∀ n : Nat, n ≤ 11 → ∃ b : Button, b.bit = n) ∧
    Finset.univ.image Button.bit = Finset.range 12 := by
  decide

/-- C4: each of the fifteen pin-number macros is a GPIO number of the ESP32,
that is, lies between 0 and 39. -/
theorem pin_numbers_within_esp32_range :
    ∀ s : Signal, 0 ≤ s.pin ∧ s.pin ≤ 39 := by
  decide

/-- C5: exporting the table as (identifier, value) pairs and looking a macro
up by its identifier gives back the value of the table, for any table over the
header's names; for the header's own values the exported pairs carry exactly
the literals written in the header. -/
theorem export_lookup_roundtrip :
    (∀ (table : Macro → Nat) (m : Macro),
      lookup (exportTable table) m.ident = some (table m)) ∧
    exportTable Macro.value =
      [("LATCH_PIN", 25), ("CLOCK_PIN", 26), ("DATA_PIN", 27),
       ("BUTTON_B", 2), ("BUTTON_Y", 4), ("BUTTON_SELECT", 5), ("BUTTON_START", 18),
       ("PAD_UP", 19), ("PAD_DOWN", 21), ("PAD_LEFT", 22), ("PAD_RIGHT", 23),
       ("BUTTON_A", 13), ("BUTTON_X", 12), ("BUTTON_L", 14), ("BUTTON_R", 15),
       ("SNES_B", 0), ("SNES_Y", 1), ("SNES_SELECT", 2), ("SNES_START", 3),
       ("SNES_UP", 4), ("SNES_DOWN", 5), ("SNES_LEFT", 6), ("SNES_RIGHT", 7),
       ("SNES_A", 8), ("SNES_X", 9), ("SNES_L", 10), ("SNES_R", 11)] := by
  refine ⟨?_, by decide⟩
  intro table m
  rcases m with (_ | _ | _ | b) | b <;> try cases b
  all_goals
    simp [exportTable, Macro.all, Signal.all, Button.all, Signal.protocol, Macro.ident, lookup]

/-- C6: in 32-bit arithmetic every button mask `1 << SNES_b` is nonzero and
below 2^12, the masks of two different buttons have no bit in common, and the
OR of the twelve masks is 0x0FFF. -/
theorem masks_pack_into_twelve_bits :
    (∀ b : Button, b.mask ≠ 0 ∧ b.mask < 2 ^ 12) ∧
    (2 : Nat) ^ 12 = 4096 ∧
    (∀ a b : Button, a ≠ b → a.mask &&& b.mask = 0) ∧
    orAll (Button.all.map Button.mask) = 0x0FFF ∧
    (0x0FFF : Nat) = 4095 := by
  decide

/-- C7: the clock cycle written in the comment of each bit-index macro is the
bit index plus one; the annotated cycles are exactly 1..12; the button of
clock 1 is B, at bit 0, and the button of clock 12 is R, at bit 11. -/
theorem clock_comment_is_bit_plus_one :
    (∀ b : Button, b.clock = b.bit + 1) ∧
    Button.all.map Button.clock = List.range' 1 12 ∧
    (∀ b : Button, b.clock = 1 ↔ b = Button.B) ∧ Button.B.bit = 0 ∧
    (∀ b : Button, b.clock = 12 ↔ b = Button.R) ∧ Button.R.bit = 11 := by
  decide

/-- C8: the data line, which the adapter drives, sits on an output-capable
GPIO (number at most 33, outside the input-only 34..39), and none of the
fifteen pin numbers lies in 6..11, the GPIOs wired to the SPI flash. -/
theorem pins_usable_on_esp32 :
    DATA_PIN ≤ 33 ∧ ¬ (34 ≤ DATA_PIN ∧ DATA_PIN ≤ 39) ∧
    (∀ s : Signal, ¬ (6 ≤ s.pin ∧ s.pin ≤ 11)) := by
  decide

/-- C9, as stated, fails: the button group is not ordered as declared.  Its
GPIO numbers in declaration order are neither ascending nor descending:
PAD_RIGHT (23) is declared before BUTTON_A (13), which is declared before
BUTTON_X (12), while BUTTON_B (2) precedes BUTTON_Y (4). -/
theorem button_pins_not_ordered_as_declared :
    ¬ (protocolPins.Sorted (· ≤ ·) ∧ buttonPins.Sorted (· ≤ ·)) ∧
    ¬ buttonPins.Sorted (· ≥ ·) ∧
    buttonPins = [2, 4, 5, 18, 19, 21, 22, 23, 13, 12, 14, 15] ∧
    Button.all.indexOf Button.Right < Button.all.indexOf Button.A ∧
    PAD_RIGHT = 23 ∧ BUTTON_A = 13 ∧ BUTTON_A < PAD_RIGHT := by
  decide

/-- C9, amended: the two groups share no GPIO; the protocol pins LATCH_PIN,
CLOCK_PIN, DATA_PIN are, in declaration order, the consecutive GPIOs 25, 26,
27; every button pin is below every protocol pin and at most 23; within the
button group only the first eight pins declared (BUTTON_B .. PAD_RIGHT) ascend
in declaration order. -/
theorem pin_groups_disjoint_protocol_consecutive :
    (∀ p ∈ protocolPins, p ∉ buttonPins) ∧
    protocolPins = [25, 26, 27] ∧
    LATCH_PIN = 25 ∧ CLOCK_PIN = LATCH_PIN + 1 ∧ DATA_PIN = CLOCK_PIN + 1 ∧
    protocolPins.Sorted (· < ·) ∧
    (∀ b : Button, ∀ s ∈ Signal.protocol, b.pin < s.pin) ∧
    (∀ b : Button, b.pin ≤ 23) ∧
    (buttonPins.take 8).Sorted (· < ·) ∧
    ¬ (buttonPins.take 9).Sorted (· ≤ ·) := by
  decide

end PinsEsp32
